import Mathlib

/-!
Verification of the in-memory todo HTTP service (src/server.js).

The file shallowly embeds the server: the mutable `todos` array becomes an
explicit `List Todo` threaded through the handlers, each Express route handler
becomes a pure function from the current store (and the request's path
parameter / parsed JSON body) to a structured response together with the new
store, and the `todoValidation` / `handleValidationErrors` middleware chain
becomes a pure validation pass run before the POST and PUT handlers.

Request bodies are modelled as JSON documents whose fields, when present,
carry the field's expected JSON type (strings for the string fields, a string
list for `tags`) — except `completed`, which carries an arbitrary JSON
primitive so that the body('completed').isBoolean() rule can fail; a missing
field is `none`, matching express-validator's treatment of an undefined field
(stringified to the empty string by the validator.js wrappers, and failing
`isArray`). A stored record's `completed` is likewise a JSON primitive,
because the PUT handler stores the body's value verbatim and validation also
admits non-boolean values whose stringification is boolean-like.
-/

set_option autoImplicit false

namespace TodoApi

/-- A JSON primitive value, as can appear in the `completed` field of a
request body; JSON numbers are modelled as integers. -/
inductive JsonPrim where
  | bool (b : Bool)
  | str (s : String)
  | num (n : Int)
  | null
deriving DecidableEq

/-- A stored todo record, mirroring the object shape used throughout
src/server.js: id, task, description, priority, completed, dueDate, tags.
`completed` is whatever JSON value the record holds: `false`/`true` for the
seeds and creations, the PUT body's verbatim value after an update. -/
structure Todo where
  id : Int
  task : String
  description : String
  priority : String
  completed : JsonPrim
  dueDate : String
  tags : List String
deriving DecidableEq

/-- A parsed JSON request body for POST/PUT. Each field is `none` when the
caller omitted it. -/
structure ReqBody where
  task : Option String
  description : Option String
  priority : Option String
  dueDate : Option String
  tags : Option (List String)
  completed : Option JsonPrim
deriving DecidableEq

/-- The JSON responses the server produces, one constructor per response
shape: 200 with the full list, 200 with a single todo, 201 with the created
todo, 200 with the delete confirmation object, 404 with an error object, and
400 with the validation-error object. -/
inductive Resp where
  | okList (ts : List Todo)
  | okTodo (t : Todo)
  | created (t : Todo)
  | okDeleted (message : String) (t : Todo)
  | notFound (error : String)
  | badRequest (error : String) (messages : List String)
deriving DecidableEq

/-- The four seed records the `todos` array is initialized with at startup
(src/server.js lines 7-44). -/
def initialTodos : List Todo :=
  [ { id := 1, task := "Complete project proposal",
      description := "Write and submit the final project proposal for the client",
      priority := "high", completed := JsonPrim.bool false, dueDate := "2024-01-15",
      tags := ["work", "urgent"] },
    { id := 2, task := "Review code changes",
      description := "Review pull requests from team members",
      priority := "medium", completed := JsonPrim.bool true, dueDate := "2024-01-12",
      tags := ["development", "review"] },
    { id := 3, task := "Update documentation",
      description := "Update API documentation with new endpoints",
      priority := "low", completed := JsonPrim.bool false, dueDate := "2024-01-20",
      tags := ["documentation"] },
    { id := 4, task := "Team meeting",
      description := "Weekly team standup meeting",
      priority := "medium", completed := JsonPrim.bool false, dueDate := "2024-01-14",
      tags := ["meeting", "team"] } ]

/-- The ids of a store, in store order. -/
def storeIds (ts : List Todo) : List Int :=
  ts.map (fun t => t.id)

/-! ### JavaScript `parseInt`

Every `:id` route runs `parseInt(req.params.id)`. We model the ECMAScript
`parseInt` with no radix argument: skip leading whitespace, read an optional
sign, autodetect a `0x`/`0X` hexadecimal prefix, then take the longest prefix
of digits of the active radix; the result is `none` (JavaScript `NaN`) when
that prefix is empty. -/

/-- The ECMAScript whitespace set — the WhiteSpace and LineTerminator code
points `parseInt` trims (and the regular-expression class matching
whitespace): TAB, LF, VT, FF, CR, SP, NBSP, the Unicode space separators,
the line and paragraph separators, and ZWNBSP. -/
def jsWhitespace : List Char :=
  ['\t', '\n', '\x0B', '\x0C', '\r', ' ', '\u00A0', '\u1680',
    '\u2000', '\u2001', '\u2002', '\u2003', '\u2004', '\u2005', '\u2006',
    '\u2007', '\u2008', '\u2009', '\u200A', '\u2028', '\u2029', '\u202F',
    '\u205F', '\u3000', '\uFEFF']

/-- Whether a character is ECMAScript whitespace. -/
def isJsSpace (c : Char) : Bool := jsWhitespace.contains c

/-- Numeric value of a decimal digit character. -/
def digitVal (c : Char) : Nat := c.toNat - '0'.toNat

/-- Value of a string of decimal digits. -/
def decValue (cs : List Char) : Nat :=
  cs.foldl (fun a c => 10 * a + digitVal c) 0

/-- Hexadecimal digit recognizer. -/
def isHexDigitChar (c : Char) : Bool :=
  c.isDigit || (97 ≤ c.toNat && c.toNat ≤ 102) || (65 ≤ c.toNat && c.toNat ≤ 70)

/-- Numeric value of a hexadecimal digit character. -/
def hexDigitVal (c : Char) : Nat :=
  if c.isDigit then digitVal c
  else if 97 ≤ c.toNat then c.toNat - 97 + 10
  else c.toNat - 65 + 10

/-- Value of a string of hexadecimal digits. -/
def hexValue (cs : List Char) : Nat :=
  cs.foldl (fun a c => 16 * a + hexDigitVal c) 0

/-- Longest decimal-digit prefix, `none` when empty (JavaScript `NaN`). -/
def parseDecimal (sign : Int) (cs : List Char) : Option Int :=
  match cs.takeWhile Char.isDigit with
  | [] => none
  | ds => some (sign * (decValue ds : Int))

/-- After sign handling: a `0x`/`0X` prefix switches to hexadecimal, anything
else is read as decimal. -/
def parseAfterSign (sign : Int) (cs : List Char) : Option Int :=
  match cs with
  | '0' :: c :: rest =>
    if c == 'x' || c == 'X' then
      match rest.takeWhile isHexDigitChar with
      | [] => none
      | ds => some (sign * (hexValue ds : Int))
    else parseDecimal sign ('0' :: c :: rest)
  | other => parseDecimal sign other

/-- `parseInt` on a character list: skip whitespace, read an optional sign,
then parse the magnitude. -/
def jsParseIntCore (cs : List Char) : Option Int :=
  match cs.dropWhile isJsSpace with
  | '-' :: rest => parseAfterSign (-1) rest
  | '+' :: rest => parseAfterSign 1 rest
  | other => parseAfterSign 1 other

/-- `parseInt(s)` as used on `req.params.id`; `none` models `NaN`. -/
def jsParseInt (s : String) : Option Int := jsParseIntCore s.data

/-! ### Validation (`todoValidation` + `handleValidationErrors`)

Each entry of the `todoValidation` array becomes a boolean check on the body,
in declaration order, each paired with its `withMessage` text. A missing
required field fails its check exactly as express-validator does (an undefined
value stringifies to `""` for the string validators and fails `isArray`). -/

/-! validator.js isISO8601() with default options tests the full ISO-8601
regular expression (calendar, week and ordinal dates, an optional time with
fraction and zone, and backreferenced separators). We transcribe that
expression as a nondeterministic matcher: each piece maps the remaining
characters to the list of possible remainders, and a string is accepted when
some complete parse consumes it entirely — exactly the backtracking regex's
language. -/

/-- Consume one character satisfying p. -/
def matchClass (p : Char → Bool) : List Char → List (List Char)
  | c :: cs => if p c then [cs] else []
  | [] => []

/-- An optional piece: skip it or take any of its parses. -/
def pOpt (f : List Char → List (List Char)) (cs : List Char) : List (List Char) :=
  cs :: f cs

/-- Consume one or more decimal digits, with every possible split (the
regex's one-or-more digits can backtrack before a lookahead). -/
def matchDigitsPlus : List Char → List (List Char)
  | c :: cs => if c.isDigit then cs :: matchDigitsPlus cs else []
  | [] => []

/-- Character range test by code point. -/
def charBetween (lo hi c : Char) : Bool :=
  lo.toNat ≤ c.toNat && c.toNat ≤ hi.toNat

/-- The two-digit month (0[1-9]|1[0-2]). -/
def matchMonth : List Char → List (List Char)
  | a :: b :: cs =>
    if (a == '0' && charBetween '1' '9' b) || (a == '1' && charBetween '0' '2' b)
    then [cs] else []
  | _ => []

/-- The two-digit day of month ([12]\d|0[1-9]|3[01]). -/
def matchDay : List Char → List (List Char)
  | a :: b :: cs =>
    if ((a == '1' || a == '2') && b.isDigit) || (a == '0' && charBetween '1' '9' b) ||
        (a == '3' && (b == '0' || b == '1'))
    then [cs] else []
  | _ => []

/-- The two-digit week number ([0-4]\d|5[0-2]). -/
def matchWeek : List Char → List (List Char)
  | a :: b :: cs =>
    if (charBetween '0' '4' a && b.isDigit) || (a == '5' && charBetween '0' '2' b)
    then [cs] else []
  | _ => []

/-- The three-digit ordinal day (00[1-9]|0[1-9]\d|[12]\d\d|3([0-5]\d|6[1-6])). -/
def matchOrdinalDay : List Char → List (List Char)
  | a :: b :: c :: cs =>
    if (a == '0' && b == '0' && charBetween '1' '9' c) ||
        (a == '0' && charBetween '1' '9' b && c.isDigit) ||
        ((a == '1' || a == '2') && b.isDigit && c.isDigit) ||
        (a == '3' && ((charBetween '0' '5' b && c.isDigit) ||
          (b == '6' && charBetween '1' '6' c)))
    then [cs] else []
  | _ => []

/-- The two-digit hour ([01]\d|2[0-3]), also the zone hour. -/
def matchHour : List Char → List (List Char)
  | a :: b :: cs =>
    if ((a == '0' || a == '1') && b.isDigit) || (a == '2' && charBetween '0' '3' b)
    then [cs] else []
  | _ => []

/-- A two-digit minute or second ([0-5]\d). -/
def matchMinSec : List Char → List (List Char)
  | a :: b :: cs => if charBetween '0' '5' a && b.isDigit then [cs] else []
  | _ => []

/-- A dot-or-comma fraction with one or more digits; when noColon is set the
regex's negative lookahead forbids a colon right after the digits. -/
def matchFraction (noColon : Bool) (cs : List Char) : List (List Char) :=
  (matchClass (fun c => c == '.' || c == ',') cs).flatMap (fun cs2 =>
    (matchDigitsPlus cs2).filter (fun rest =>
      !noColon || !(rest.head? == some ':')))

/-- The 24:00 form of the hour (24 with an optional colon then 00). -/
def match2400 (cs : List Char) : List (List Char) :=
  (matchClass (fun c => c == '2') cs).flatMap (fun cs2 =>
    (matchClass (fun c => c == '4') cs2).flatMap (fun cs3 =>
      (pOpt (matchClass (fun c => c == ':')) cs3).flatMap (fun cs4 =>
        (matchClass (fun c => c == '0') cs4).flatMap
          (matchClass (fun c => c == '0')))))

/-- The zone designator: z or Z, or a sign, a zone hour, an optional colon
and optional minutes. -/
def matchTZ (cs : List Char) : List (List Char) :=
  (matchClass (fun c => c == 'z' || c == 'Z') cs) ++
  ((matchClass (fun c => c == '+' || c == '-') cs).flatMap (fun cs2 =>
    (matchHour cs2).flatMap (fun cs3 =>
      (pOpt (matchClass (fun c => c == ':')) cs3).flatMap (pOpt matchMinSec))))

/-- The time of day: an hour with an optional (optionally colon-separated)
minute, or the 24:00 form. The boolean in each result records whether the
minute's separator group matched a colon — the backreference reused as the
seconds separator, empty when the minute (or the group) did not
participate. -/
def matchTimeOfDay (cs : List Char) : List (Bool × List Char) :=
  ((matchHour cs).flatMap (fun cs2 =>
    (false, cs2) ::
      ((matchClass (fun c => c == ':') cs2).flatMap (fun cs3 =>
        (matchMinSec cs3).map (fun cs4 => (true, cs4)))) ++
      ((matchMinSec cs2).map (fun cs3 => (false, cs3))))) ++
  ((match2400 cs).map (fun cs2 => (false, cs2)))

/-- After the T or whitespace separator: an optional time of day with an
optional fraction, optional seconds introduced by the backreferenced minute
separator (with their own fraction), and an optional zone. -/
def matchTimeBody (cs : List Char) : List (List Char) :=
  ((false, cs) ::
      (matchTimeOfDay cs).flatMap (fun p =>
        (p.1, p.2) :: (matchFraction true p.2).map (fun r => (p.1, r)))).flatMap
    (fun p =>
      (p.2 ::
          ((if p.1 then matchClass (fun c => c == ':') p.2 else [p.2]).flatMap
            (fun cs2 => (matchMinSec cs2).flatMap (fun cs3 =>
              cs3 :: matchFraction false cs3)))).flatMap
        (fun cs4 => cs4 :: matchTZ cs4))

/-- The date after the year and its separator: a month with an optional
(backreference-separated) day, a week-number with an optional weekday, or an
ordinal day. `dash` is the captured year separator. -/
def matchDateRest (dash : Bool) (cs : List Char) : List (List Char) :=
  ((matchMonth cs).flatMap (fun cs2 =>
    cs2 ::
      ((if dash then matchClass (fun c => c == '-') cs2 else [cs2]).flatMap
        matchDay))) ++
  ((matchClass (fun c => c == 'W') cs).flatMap (fun cs2 =>
    (matchWeek cs2).flatMap (fun cs3 =>
      cs3 ::
        ((pOpt (matchClass (fun c => c == '-')) cs3).flatMap
          (matchClass (charBetween '1' '7')))))) ++
  matchOrdinalDay cs

/-- A word character for the regex's word boundary. -/
def isWordChar (c : Char) : Bool := c.isAlphanum || c == '_'

/-- The negative lookahead after the year: the year is rejected when exactly
two digits follow up to a word boundary (an ambiguous basic-format
year-month). -/
def yearLookahead : List Char → Bool
  | a :: b :: rest =>
    !(a.isDigit && b.isDigit &&
      (match rest with
        | [] => true
        | r :: _ => !(isWordChar r)))
  | _ => true

/-- An optional sign, four year digits, and the lookahead. -/
def matchYear (cs : List Char) : List (List Char) :=
  (pOpt (matchClass (fun c => c == '+' || c == '-')) cs).flatMap (fun cs2 =>
    match cs2 with
    | a :: b :: c :: d :: rest =>
      if a.isDigit && b.isDigit && c.isDigit && d.isDigit && yearLookahead rest
      then [rest] else []
    | _ => [])

/-- The year separator (empty or a dash, backreferenced by the day
separator), the date, and an optional time introduced by T or whitespace. -/
def matchAfterYear (dash : Bool) (cs : List Char) : Bool :=
  ((if dash then matchClass (fun c => c == '-') cs else [cs]).any (fun cs2 =>
    (matchDateRest dash cs2).any (fun cs3 =>
      cs3 = [] ||
        ((matchClass (fun c => c == 'T' || isJsSpace c) cs3).flatMap
          matchTimeBody).any (fun cs4 => cs4 = []))))

/-- validator.js isISO8601() with default options: the string is accepted
when the year alone, or the year with a separator, a date part and an
optional time part, consumes it entirely. -/
def isISO8601 (s : String) : Bool :=
  (matchYear s.data).any (fun cs =>
    cs = [] || matchAfterYear true cs || matchAfterYear false cs)

/-- body('task').isLength(min 3). -/
def checkTask (b : ReqBody) : Bool := 3 ≤ (b.task.getD "").length

/-- body('description').isLength(min 10). -/
def checkDescription (b : ReqBody) : Bool := 10 ≤ (b.description.getD "").length

/-- body('priority').isIn(low, medium, high). -/
def checkPriority (b : ReqBody) : Bool :=
  ["low", "medium", "high"].contains (b.priority.getD "")

/-- body('dueDate').isISO8601(). -/
def checkDueDate (b : ReqBody) : Bool := isISO8601 (b.dueDate.getD "")

/-- body('tags').isArray(min 1): fails when the field is absent, passes when
a list with at least one element is supplied. -/
def checkTags (b : ReqBody) : Bool :=
  match b.tags with
  | some l => 1 ≤ l.length
  | none => false

/-- express-validator stringifies a field value before running a validator.js
check: booleans and numbers via String(value), null to the empty string. -/
def jsonPrimToString : JsonPrim → String
  | JsonPrim.bool true => "true"
  | JsonPrim.bool false => "false"
  | JsonPrim.str s => s
  | JsonPrim.num n => toString n
  | JsonPrim.null => ""

/-- validator.js isBoolean with its default (non-loose) options: exactly the
strings true, false, 0 and 1 pass. -/
def isBooleanStr (s : String) : Bool :=
  ["true", "false", "0", "1"].contains s

/-- body('completed').optional().isBoolean(): an absent field is skipped; a
present value passes exactly when its stringification is one of the boolean
strings. -/
def checkCompleted (b : ReqBody) : Bool :=
  match b.completed with
  | some v => isBooleanStr (jsonPrimToString v)
  | none => true

def taskMsg : String := "Task must be at least 3 characters long"
def descriptionMsg : String := "Description must be at least 10 characters long"
def priorityMsg : String := "Priority must be low, medium, or high"
def dueDateMsg : String := "Due date must be a valid date (YYYY-MM-DD)"
def tagsMsg : String := "Tags must be an array with at least one tag"
def completedMsg : String := "Completed must be true or false"

/-- All six violation messages in rule-declaration order. -/
def allMessages : List String :=
  [taskMsg, descriptionMsg, priorityMsg, dueDateMsg, tagsMsg, completedMsg]

/-- `validationResult(req).array().map(e => e.msg)`: the message of every
failed rule, collected in rule-declaration order. -/
def validationMessages (b : ReqBody) : List String :=
  (if checkTask b then [] else [taskMsg]) ++
  (if checkDescription b then [] else [descriptionMsg]) ++
  (if checkPriority b then [] else [priorityMsg]) ++
  (if checkDueDate b then [] else [dueDateMsg]) ++
  (if checkTags b then [] else [tagsMsg]) ++
  (if checkCompleted b then [] else [completedMsg])

/-- The middleware's default: `if (req.body.completed === undefined)
req.body.completed = false`. -/
def applyCompletedDefault (b : ReqBody) : ReqBody :=
  match b.completed with
  | none => { b with completed := some (JsonPrim.bool false) }
  | some _ => b

/-- `handleValidationErrors` (src/server.js lines 89-107): with any
violations, short-circuit with 400 and the collected messages; otherwise
default `completed` and pass the body on to the route handler. -/
def handleValidationErrors (b : ReqBody) : Except Resp ReqBody :=
  if validationMessages b = [] then Except.ok (applyCompletedDefault b)
  else Except.error (Resp.badRequest "Validation failed" (validationMessages b))

/-! ### Store operations and route handlers

`todos.find`, `todos.findIndex` + assignment, and `todos.findIndex` +
`splice` become first-match recursions on the list. The lookups compare
`t.id === todoId` where `todoId` is the `parseInt` result: comparison with
`NaN` (`none`) is always false, so `some t.id == todoId`. -/

/-- `todos.findIndex(t => t.id === todoId)` followed by
`todos[todoIndex] = u`: replace the first record whose id matches, keeping
its position; `none` when no record matches. -/
def replaceTodo (todoId : Option Int) (u : Todo) : List Todo → Option (List Todo)
  | [] => none
  | t :: ts =>
    if some t.id == todoId then some (u :: ts)
    else (replaceTodo todoId u ts).map (fun ts2 => t :: ts2)

/-- `todos.findIndex(t => t.id === todoId)` followed by
`todos.splice(todoIndex, 1)[0]`: remove and return the first record whose id
matches; `none` when no record matches. -/
def removeTodo (todoId : Option Int) : List Todo → Option (Todo × List Todo)
  | [] => none
  | t :: ts =>
    if some t.id == todoId then some (t, ts)
    else (removeTodo todoId ts).map (fun p => (p.1, t :: p.2))

/-- GET /api/todos: the full list, 200. -/
def getTodos (todos : List Todo) : Resp := Resp.okList todos

/-- GET /api/todos/:id (src/server.js lines 122-131). -/
def getTodo (todos : List Todo) (idParam : String) : Resp :=
  let todoId := jsParseInt idParam
  match todos.find? (fun t => some t.id == todoId) with
  | some t => Resp.okTodo t
  | none => Resp.notFound "Todo not found"

/-- POST /api/todos (src/server.js lines 133-148): validation middleware,
then a new record built from the body with `id = todos.length + 1` and
`completed: false`, pushed at the end. The `getD` defaults are unreachable:
validation guarantees the five required fields are present. -/
def postTodo (todos : List Todo) (b : ReqBody) : Resp × List Todo :=
  match handleValidationErrors b with
  | Except.error r => (r, todos)
  | Except.ok body =>
    let newTodo : Todo :=
      { id := (todos.length : Int) + 1,
        task := body.task.getD "",
        description := body.description.getD "",
        priority := body.priority.getD "",
        completed := JsonPrim.bool false,
        dueDate := body.dueDate.getD "",
        tags := body.tags.getD [] }
    (Resp.created newTodo, todos ++ [newTodo])

/-- The replacement object the PUT handler builds from the parsed id and the
validated body (src/server.js lines 160-168). The `getD` defaults are
unreachable: validation guarantees the fields are present (with `completed`
defaulted by the middleware), and the id is only used on a successful match,
where it is the parsed id. -/
def putRecord (todoId : Option Int) (body : ReqBody) : Todo :=
  { id := todoId.getD 0,
    task := body.task.getD "",
    description := body.description.getD "",
    priority := body.priority.getD "",
    completed := body.completed.getD (JsonPrim.bool false),
    dueDate := body.dueDate.getD "",
    tags := body.tags.getD [] }

/-- PUT /api/todos/:id (src/server.js lines 150-171): validation middleware,
then replace every field of the matching record in place, responding with the
updated record; 404 when no record matches. -/
def putTodo (todos : List Todo) (idParam : String) (b : ReqBody) : Resp × List Todo :=
  match handleValidationErrors b with
  | Except.error r => (r, todos)
  | Except.ok body =>
    let todoId := jsParseInt idParam
    match replaceTodo todoId (putRecord todoId body) todos with
    | none => (Resp.notFound "Todo not found", todos)
    | some todos2 => (Resp.okTodo (putRecord todoId body), todos2)

/-- DELETE /api/todos/:id (src/server.js lines 173-183): remove the matching
record and respond with it; 404 when no record matches. -/
def deleteTodo (todos : List Todo) (idParam : String) : Resp × List Todo :=
  let todoId := jsParseInt idParam
  match removeTodo todoId todos with
  | none => (Resp.notFound "Todo not found", todos)
  | some (deleted, todos2) => (Resp.okDeleted "Todo deleted" deleted, todos2)

/-! ### Request sequences -/

/-- The store-mutating requests (GET never changes the store). -/
inductive Op where
  | post (b : ReqBody)
  | put (idParam : String) (b : ReqBody)
  | del (idParam : String)
deriving DecidableEq

/-- The store after handling one request. -/
def applyOp (todos : List Todo) : Op → List Todo
  | Op.post b => (postTodo todos b).2
  | Op.put s b => (putTodo todos s b).2
  | Op.del s => (deleteTodo todos s).2

/-- The store after handling a sequence of requests. -/
def runOps (todos : List Todo) (ops : List Op) : List Todo :=
  ops.foldl applyOp todos

/-- The valid creation body of the spec's end-to-end scenario. -/
def sampleBody : ReqBody :=
  { task := some "Buy milk and eggs",
    description := some "Get groceries for the week",
    priority := some "medium",
    dueDate := some "2024-02-01",
    tags := some ["errand"],
    completed := none }

/-- The record `postTodo` builds from `sampleBody` at a given id. -/
def sampleTodoAt (n : Int) : Todo :=
  { id := n, task := "Buy milk and eggs",
    description := "Get groceries for the week",
    priority := "medium", completed := JsonPrim.bool false,
    dueDate := "2024-02-01", tags := ["errand"] }

/-- The record a valid POST of body `b` against store `todos` creates:
`id = todos.length + 1`, the body's five fields, `completed` forced to
`false`. -/
def createdTodo (todos : List Todo) (b : ReqBody) : Todo :=
  { id := (todos.length : Int) + 1,
    task := b.task.getD "",
    description := b.description.getD "",
    priority := b.priority.getD "",
    completed := JsonPrim.bool false,
    dueDate := b.dueDate.getD "",
    tags := b.tags.getD [] }

/-- The record a valid PUT with body `b` stores at id `n`: the body's fields
with `completed` defaulted to `false` when the body omitted it. -/
def updatedTodo (n : Int) (b : ReqBody) : Todo :=
  { id := n,
    task := b.task.getD "",
    description := b.description.getD "",
    priority := b.priority.getD "",
    completed := b.completed.getD (JsonPrim.bool false),
    dueDate := b.dueDate.getD "",
    tags := b.tags.getD [] }

/-- The sample body with a caller-supplied `completed: true`. -/
def sampleBodyCompleted : ReqBody :=
  { sampleBody with completed := some (JsonPrim.bool true) }

/-- A body violating all six rules at once: a 2-character task, a short
description, an out-of-range priority, a malformed date, an empty tag list
and a non-boolean completed. -/
def badBody : ReqBody :=
  { task := some "Hi",
    description := some "short",
    priority := some "urgent",
    dueDate := some "not-a-date",
    tags := some [],
    completed := some (JsonPrim.str "yes") }

/-- A reachable store with ids 1 through 10: the seed store after six valid
creations. -/
def store10 : List Todo :=
  runOps initialTodos (List.replicate 6 (Op.post sampleBody))

/-- A reachable store holding two field-identical id-4 records: the id-reuse
bug makes two indistinguishable copies of the sample record at id 4. -/
def dupStore : List Todo :=
  runOps initialTodos
    [Op.del "2", Op.post sampleBody, Op.del "1", Op.post sampleBody, Op.del "4"]

end TodoApi

namespace TodoApi

/-! ### Helper lemmas -/

theorem applyCompletedDefault_task (b : ReqBody) :
    (applyCompletedDefault b).task = b.task := by
  unfold applyCompletedDefault; cases b.completed <;> rfl

theorem applyCompletedDefault_description (b : ReqBody) :
    (applyCompletedDefault b).description = b.description := by
  unfold applyCompletedDefault; cases b.completed <;> rfl

theorem applyCompletedDefault_priority (b : ReqBody) :
    (applyCompletedDefault b).priority = b.priority := by
  unfold applyCompletedDefault; cases b.completed <;> rfl

theorem applyCompletedDefault_dueDate (b : ReqBody) :
    (applyCompletedDefault b).dueDate = b.dueDate := by
  unfold applyCompletedDefault; cases b.completed <;> rfl

theorem applyCompletedDefault_tags (b : ReqBody) :
    (applyCompletedDefault b).tags = b.tags := by
  unfold applyCompletedDefault; cases b.completed <;> rfl

theorem applyCompletedDefault_completed (b : ReqBody) :
    (applyCompletedDefault b).completed =
      some (b.completed.getD (JsonPrim.bool false)) := by
  cases h : b.completed <;> simp [applyCompletedDefault, h]

/-- An empty message list means every check passed. -/
theorem valid_checks (b : ReqBody) (h : validationMessages b = []) :
    checkTask b = true ∧ checkDescription b = true ∧ checkPriority b = true ∧
      checkDueDate b = true ∧ checkTags b = true := by
  unfold validationMessages at h
  cases h1 : checkTask b <;> cases h2 : checkDescription b <;>
    cases h3 : checkPriority b <;> cases h4 : checkDueDate b <;>
    cases h5 : checkTags b <;> simp [h1, h2, h3, h4, h5] at h ⊢

theorem task_present (b : ReqBody) (h : checkTask b = true) :
    b.task = some (b.task.getD "") := by
  cases ht : b.task
  · rw [checkTask, ht] at h; simp at h
  · simp [ht]

theorem description_present (b : ReqBody) (h : checkDescription b = true) :
    b.description = some (b.description.getD "") := by
  cases ht : b.description
  · rw [checkDescription, ht] at h; simp at h
  · simp [ht]

theorem priority_present (b : ReqBody) (h : checkPriority b = true) :
    b.priority = some (b.priority.getD "") := by
  cases ht : b.priority
  · rw [checkPriority, ht] at h; simp at h
  · simp [ht]

theorem dueDate_present (b : ReqBody) (h : checkDueDate b = true) :
    b.dueDate = some (b.dueDate.getD "") := by
  cases ht : b.dueDate
  · rw [checkDueDate, ht] at h
    exact absurd h (by decide)
  · simp [ht]

theorem tags_present (b : ReqBody) (h : checkTags b = true) :
    b.tags = some (b.tags.getD []) := by
  cases ht : b.tags
  · rw [checkTags, ht] at h; simp at h
  · simp [ht]

theorem replaceTodo_split (n : Int) (u t₀ : Todo) (pre post : List Todo)
    (hpre : ∀ t ∈ pre, t.id ≠ n) (ht : t₀.id = n) :
    replaceTodo (some n) u (pre ++ t₀ :: post) = some (pre ++ u :: post) := by
  induction pre with
  | nil => simp [replaceTodo, ht]
  | cons p ps ih =>
    have hp : p.id ≠ n := hpre p (by simp)
    have hrest : ∀ t ∈ ps, t.id ≠ n := fun t htm => hpre t (by simp [htm])
    simp [replaceTodo, hp, ih hrest]

theorem removeTodo_split (n : Int) (t₀ : Todo) (pre post : List Todo)
    (hpre : ∀ t ∈ pre, t.id ≠ n) (ht : t₀.id = n) :
    removeTodo (some n) (pre ++ t₀ :: post) = some (t₀, pre ++ post) := by
  induction pre with
  | nil => simp [removeTodo, ht]
  | cons p ps ih =>
    have hp : p.id ≠ n := hpre p (by simp)
    have hrest : ∀ t ∈ ps, t.id ≠ n := fun t htm => hpre t (by simp [htm])
    simp [removeTodo, hp, ih hrest]

theorem find_split (n : Int) (t₀ : Todo) (pre post : List Todo)
    (hpre : ∀ t ∈ pre, t.id ≠ n) (ht : t₀.id = n) :
    (pre ++ t₀ :: post).find? (fun t => some t.id == some n) = some t₀ := by
  induction pre with
  | nil =>
    have ht' : (some t₀.id == some n) = true := by simp [ht]
    rw [List.nil_append, List.find?_cons, ht']
  | cons p ps ih =>
    have hrest : ∀ t ∈ ps, t.id ≠ n := fun t htm => hpre t (by simp [htm])
    have hp : (some p.id == some n) = false := by simp [hpre p (by simp)]
    rw [List.cons_append, List.find?_cons, hp]
    exact ih hrest

theorem replaceTodo_none (todoId : Option Int) (u : Todo) (l : List Todo)
    (h : ∀ t ∈ l, some t.id ≠ todoId) :
    replaceTodo todoId u l = none := by
  induction l with
  | nil => rfl
  | cons p ps ih =>
    have hp : some p.id ≠ todoId := h p (by simp)
    have hrest : ∀ t ∈ ps, some t.id ≠ todoId := fun t htm => h t (by simp [htm])
    simp [replaceTodo, hp, ih hrest]

theorem removeTodo_none (todoId : Option Int) (l : List Todo)
    (h : ∀ t ∈ l, some t.id ≠ todoId) :
    removeTodo todoId l = none := by
  induction l with
  | nil => rfl
  | cons p ps ih =>
    have hp : some p.id ≠ todoId := h p (by simp)
    have hrest : ∀ t ∈ ps, some t.id ≠ todoId := fun t htm => h t (by simp [htm])
    simp [removeTodo, hp, ih hrest]

theorem find_none (todoId : Option Int) (l : List Todo)
    (h : ∀ t ∈ l, some t.id ≠ todoId) :
    l.find? (fun t => some t.id == todoId) = none := by
  rw [List.find?_eq_none]
  intro t htm
  simpa using h t htm

/-- The updated record built from the middleware-processed body is
`updatedTodo`. -/
theorem putRecord_eq (n : Int) (b : ReqBody) :
    putRecord (some n) (applyCompletedDefault b) = updatedTodo n b := by
  unfold putRecord updatedTodo
  rw [applyCompletedDefault_task, applyCompletedDefault_description,
    applyCompletedDefault_priority, applyCompletedDefault_dueDate,
    applyCompletedDefault_tags, applyCompletedDefault_completed]
  simp

/-- A valid POST creates `createdTodo` and appends it. -/
theorem postTodo_valid (todos : List Todo) (b : ReqBody)
    (h : validationMessages b = []) :
    postTodo todos b =
      (Resp.created (createdTodo todos b), todos ++ [createdTodo todos b]) := by
  unfold postTodo handleValidationErrors
  rw [if_pos h]
  simp [createdTodo, applyCompletedDefault_task, applyCompletedDefault_description,
    applyCompletedDefault_priority, applyCompletedDefault_dueDate,
    applyCompletedDefault_tags]

/-- An invalid POST is rejected with the collected messages, store untouched. -/
theorem postTodo_invalid (todos : List Todo) (b : ReqBody)
    (h : validationMessages b ≠ []) :
    postTodo todos b =
      (Resp.badRequest "Validation failed" (validationMessages b), todos) := by
  unfold postTodo handleValidationErrors
  rw [if_neg h]

/-- An invalid PUT is rejected with the collected messages, store untouched. -/
theorem putTodo_invalid (todos : List Todo) (idParam : String) (b : ReqBody)
    (h : validationMessages b ≠ []) :
    putTodo todos idParam b =
      (Resp.badRequest "Validation failed" (validationMessages b), todos) := by
  unfold putTodo handleValidationErrors
  rw [if_neg h]

/-- A valid PUT reduces to the lookup-and-replace on the store. -/
theorem putTodo_valid (todos : List Todo) (idParam : String) (b : ReqBody)
    (h : validationMessages b = []) :
    putTodo todos idParam b =
      match replaceTodo (jsParseInt idParam)
          (putRecord (jsParseInt idParam) (applyCompletedDefault b)) todos with
      | none => (Resp.notFound "Todo not found", todos)
      | some todos2 =>
        (Resp.okTodo (putRecord (jsParseInt idParam) (applyCompletedDefault b)), todos2) := by
  unfold putTodo handleValidationErrors
  rw [if_pos h]

/-- A valid PUT to an id whose first match is `t₀` replaces it in place. -/
theorem putTodo_found (pre post : List Todo) (t₀ : Todo) (idParam : String)
    (n : Int) (b : ReqBody)
    (hb : validationMessages b = []) (hid : jsParseInt idParam = some n)
    (hpre : ∀ t ∈ pre, t.id ≠ n) (ht : t₀.id = n) :
    putTodo (pre ++ t₀ :: post) idParam b =
      (Resp.okTodo (updatedTodo n b), pre ++ updatedTodo n b :: post) := by
  rw [putTodo_valid _ _ _ hb, hid, putRecord_eq,
    replaceTodo_split n (updatedTodo n b) t₀ pre post hpre ht]

/-- A DELETE whose id's first match is `t₀` removes it and returns it. -/
theorem deleteTodo_found (pre post : List Todo) (t₀ : Todo) (idParam : String)
    (n : Int)
    (hid : jsParseInt idParam = some n)
    (hpre : ∀ t ∈ pre, t.id ≠ n) (ht : t₀.id = n) :
    deleteTodo (pre ++ t₀ :: post) idParam =
      (Resp.okDeleted "Todo deleted" t₀, pre ++ post) := by
  unfold deleteTodo
  rw [hid]
  simp only [removeTodo_split n t₀ pre post hpre ht]

/-- A GET whose id's first match is `t₀` returns it. -/
theorem getTodo_found (pre post : List Todo) (t₀ : Todo) (idParam : String)
    (n : Int)
    (hid : jsParseInt idParam = some n)
    (hpre : ∀ t ∈ pre, t.id ≠ n) (ht : t₀.id = n) :
    getTodo (pre ++ t₀ :: post) idParam = Resp.okTodo t₀ := by
  unfold getTodo
  rw [hid]
  simp only [find_split n t₀ pre post hpre ht]

/-- A GET matching nothing returns 404. -/
theorem getTodo_miss (todos : List Todo) (idParam : String)
    (h : ∀ t ∈ todos, some t.id ≠ jsParseInt idParam) :
    getTodo todos idParam = Resp.notFound "Todo not found" := by
  unfold getTodo
  simp only [find_none _ _ h]


/-- The collected messages always form a subsequence of the six messages in
rule-declaration order. -/
theorem msgs_sublist (b : ReqBody) :
    (validationMessages b).Sublist allMessages := by
  unfold validationMessages allMessages
  cases checkTask b <;> cases checkDescription b <;> cases checkPriority b <;>
    cases checkDueDate b <;> cases checkTags b <;> cases checkCompleted b <;>
    decide

/-- A rule's message is collected exactly when that rule fails. -/
theorem mem_validationMessages (b : ReqBody) :
    (taskMsg ∈ validationMessages b ↔ checkTask b = false) ∧
    (descriptionMsg ∈ validationMessages b ↔ checkDescription b = false) ∧
    (priorityMsg ∈ validationMessages b ↔ checkPriority b = false) ∧
    (dueDateMsg ∈ validationMessages b ↔ checkDueDate b = false) ∧
    (tagsMsg ∈ validationMessages b ↔ checkTags b = false) ∧
    (completedMsg ∈ validationMessages b ↔ checkCompleted b = false) := by
  unfold validationMessages
  cases checkTask b <;> cases checkDescription b <;> cases checkPriority b <;>
    cases checkDueDate b <;> cases checkTags b <;> cases checkCompleted b <;>
    decide

/-- A decimal digit is not one of the whitespace characters. -/
theorem digit_not_space (c : Char) (h : c.isDigit = true) :
    isJsSpace c = false := by
  cases hsp : isJsSpace c
  · rfl
  · exfalso
    have hmem : c ∈ jsWhitespace := by
      simpa [isJsSpace] using hsp
    fin_cases hmem <;> revert h <;> decide

/-- On input starting with a digit, `parseInt` skips no whitespace and reads
no sign. -/
theorem jsParseIntCore_digit (d : Char) (l : List Char) (hd : d.isDigit = true) :
    jsParseIntCore (d :: l) = parseAfterSign 1 (d :: l) := by
  unfold jsParseIntCore
  rw [List.dropWhile_cons, digit_not_space d hd]
  simp only [Bool.false_eq_true, if_false]
  split
  · rename_i rest heq
    rw [List.cons.injEq] at heq
    rw [heq.1] at hd
    exact absurd hd (by decide)
  · rename_i rest heq
    rw [List.cons.injEq] at heq
    rw [heq.1] at hd
    exact absurd hd (by decide)
  · rfl

/-- Without a hexadecimal prefix, the magnitude is read as decimal. -/
theorem parseAfterSign_dec (cs : List Char)
    (h : ∀ c rest, cs = '0' :: c :: rest → ((c == 'x') || (c == 'X')) = false) :
    parseAfterSign 1 cs = parseDecimal 1 cs := by
  unfold parseAfterSign
  split
  · rename_i c rest
    rw [h c rest rfl]
    simp only [Bool.false_eq_true, if_false]
  · rfl

/-- The digit prefix of `ds ++ c :: l` is `ds` when `ds` is all digits and
`c` is not a digit. -/
theorem takeWhile_digits (ds : List Char) (c : Char) (l : List Char)
    (hds : ∀ x ∈ ds, x.isDigit = true) (hc : c.isDigit = false) :
    (ds ++ c :: l).takeWhile Char.isDigit = ds := by
  induction ds with
  | nil => simp [List.takeWhile_cons, hc]
  | cons d ds2 ih =>
    have hd : d.isDigit = true := hds d (by simp)
    simp [List.takeWhile_cons, hd, ih (fun x hx => hds x (by simp [hx]))]

/-- Decimal parse of a nonempty digit prefix followed by a non-digit. -/
theorem parseDecimal_split (ds : List Char) (c : Char) (l : List Char)
    (hne : ds ≠ []) (hds : ∀ x ∈ ds, x.isDigit = true) (hc : c.isDigit = false) :
    parseDecimal 1 (ds ++ c :: l) = some (decValue ds : Int) := by
  unfold parseDecimal
  rw [takeWhile_digits ds c l hds hc]
  cases ds with
  | nil => exact absurd rfl hne
  | cons d ds2 => simp

/-- `parseInt` on a nonempty digit prefix followed by a non-digit character
reads exactly the prefix, except for the hexadecimal `0x`/`0X` escape. -/
theorem jsParseInt_digit_prefix (ds : List Char) (c : Char) (l : List Char)
    (hne : ds ≠ []) (hds : ∀ x ∈ ds, x.isDigit = true) (hc : c.isDigit = false)
    (hnx : ds = ['0'] → c ≠ 'x' ∧ c ≠ 'X') :
    jsParseInt ⟨ds ++ c :: l⟩ = some (decValue ds : Int) := by
  cases ds with
  | nil => exact absurd rfl hne
  | cons d ds2 =>
    have hd : d.isDigit = true := hds d (by simp)
    show jsParseIntCore ((d :: ds2) ++ c :: l) = _
    rw [List.cons_append, jsParseIntCore_digit d _ hd]
    rw [parseAfterSign_dec (d :: (ds2 ++ c :: l)) ?hhex]
    · rw [← List.cons_append, parseDecimal_split (d :: ds2) c l hne hds hc]
    case hhex =>
      intro c2 rest heq
      rw [List.cons.injEq] at heq
      obtain ⟨hd0, htail⟩ := heq
      cases ds2 with
      | nil =>
        rw [List.nil_append, List.cons.injEq] at htail
        obtain ⟨hcc, _⟩ := htail
        have hx : c ≠ 'x' ∧ c ≠ 'X' := hnx (by rw [hd0])
        rw [← hcc]
        simp [hx.1, hx.2]
      | cons e ds3 =>
        rw [List.cons_append, List.cons.injEq] at htail
        obtain ⟨hce, _⟩ := htail
        have he : c2.isDigit = true := by
          rw [← hce]; exact hds e (by simp)
        have h1 : (c2 == 'x') = false := by
          cases hcx : c2 == 'x'
          · rfl
          · rw [eq_of_beq hcx] at he; exact absurd he (by decide)
        have h2 : (c2 == 'X') = false := by
          cases hcx : c2 == 'X'
          · rfl
          · rw [eq_of_beq hcx] at he; exact absurd he (by decide)
        rw [h1, h2]
        rfl


/-- In a store with pairwise-distinct ids, removing the record with id `n`
leaves no record with id `n`. -/
theorem ids_unique_removed (pre post : List Todo) (t₀ : Todo) (n : Int)
    (ht : t₀.id = n)
    (hnodup : (storeIds (pre ++ t₀ :: post)).Nodup) :
    ∀ t ∈ pre ++ post, t.id ≠ n := by
  intro t htm hEq
  have hmap : (storeIds pre ++ t₀.id :: storeIds post).Nodup := by
    simpa [storeIds, List.map_append] using hnodup
  have hcons : (t₀.id :: (storeIds pre ++ storeIds post)).Nodup :=
    List.nodup_middle.mp hmap
  have hnot : t₀.id ∉ storeIds pre ++ storeIds post := (List.nodup_cons.mp hcons).1
  apply hnot
  have hmem : t.id ∈ storeIds pre ++ storeIds post := by
    simp only [storeIds, ← List.map_append, List.mem_map]
    exact ⟨t, htm, rfl⟩
  rw [ht, ← hEq]
  exact hmem

/-! ### The claims -/

/-- C1: the spec's invariant that a record id is unique within the store and
is never reused after deletion is violated by the code, which assigns
`id = todos.length + 1`. From the seed store, deleting id 2 and then creating
a valid record yields ids 1, 3, 4, 4 — a duplicate — and deleting id 4 and
then creating a valid record reassigns the deleted id 4. -/
theorem C1_id_reuse_bug :
    storeIds (runOps initialTodos [Op.del "2", Op.post sampleBody]) = [1, 3, 4, 4] ∧
    ¬ (storeIds (runOps initialTodos [Op.del "2", Op.post sampleBody])).Nodup ∧
    storeIds (runOps initialTodos [Op.del "4", Op.post sampleBody]) = [1, 2, 3, 4] :=
  ⟨by decide, by decide, by decide⟩

/-- C2: every POST of a valid body responds 201 with the new record, appends
it at the end of the store, and assigns it id equal to the store size
immediately before the call plus one. -/
theorem C2_post_assigns_next_id (todos : List Todo) (b : ReqBody)
    (h : validationMessages b = []) :
    postTodo todos b =
      (Resp.created (createdTodo todos b), todos ++ [createdTodo todos b]) ∧
    (createdTodo todos b).id = (todos.length : Int) + 1 :=
  ⟨postTodo_valid todos b h, rfl⟩

/-- Witness for C2: the spec scenario, a valid creation against the seed
store, gets id 4 + 1 = 5 and is appended. -/
theorem C2_witness :
    postTodo initialTodos sampleBody =
      (Resp.created (createdTodo initialTodos sampleBody),
        initialTodos ++ [createdTodo initialTodos sampleBody]) ∧
    (createdTodo initialTodos sampleBody).id = (initialTodos.length : Int) + 1 :=
  C2_post_assigns_next_id initialTodos sampleBody (by decide)

/-- C3: every POST of a valid body creates a record whose task, description,
priority, dueDate and tags equal the request body's, with completed equal to
false regardless of any caller-supplied value (the body's `completed` is
unconstrained here), returns it with 201, and the record is visible in a
subsequent GET of the list. -/
theorem C3_post_preserves_fields (todos : List Todo) (b : ReqBody)
    (h : validationMessages b = []) :
    postTodo todos b =
      (Resp.created (createdTodo todos b), todos ++ [createdTodo todos b]) ∧
    b.task = some (createdTodo todos b).task ∧
    b.description = some (createdTodo todos b).description ∧
    b.priority = some (createdTodo todos b).priority ∧
    b.dueDate = some (createdTodo todos b).dueDate ∧
    b.tags = some (createdTodo todos b).tags ∧
    (createdTodo todos b).completed = JsonPrim.bool false ∧
    getTodos (todos ++ [createdTodo todos b]) =
      Resp.okList (todos ++ [createdTodo todos b]) ∧
    createdTodo todos b ∈ todos ++ [createdTodo todos b] := by
  obtain ⟨h1, h2, h3, h4, h5⟩ := valid_checks b h
  exact ⟨postTodo_valid todos b h, task_present b h1, description_present b h2,
    priority_present b h3, dueDate_present b h4, tags_present b h5, rfl, rfl,
    by simp⟩

/-- Witness for C3: a valid creation whose caller supplied completed = true
still stores completed = false. -/
theorem C3_witness :
    postTodo initialTodos sampleBodyCompleted =
      (Resp.created (createdTodo initialTodos sampleBodyCompleted),
        initialTodos ++ [createdTodo initialTodos sampleBodyCompleted]) ∧
    sampleBodyCompleted.task = some (createdTodo initialTodos sampleBodyCompleted).task ∧
    sampleBodyCompleted.description =
      some (createdTodo initialTodos sampleBodyCompleted).description ∧
    sampleBodyCompleted.priority =
      some (createdTodo initialTodos sampleBodyCompleted).priority ∧
    sampleBodyCompleted.dueDate =
      some (createdTodo initialTodos sampleBodyCompleted).dueDate ∧
    sampleBodyCompleted.tags = some (createdTodo initialTodos sampleBodyCompleted).tags ∧
    (createdTodo initialTodos sampleBodyCompleted).completed = JsonPrim.bool false ∧
    getTodos (initialTodos ++ [createdTodo initialTodos sampleBodyCompleted]) =
      Resp.okList (initialTodos ++ [createdTodo initialTodos sampleBodyCompleted]) ∧
    createdTodo initialTodos sampleBodyCompleted ∈
      initialTodos ++ [createdTodo initialTodos sampleBodyCompleted] :=
  C3_post_preserves_fields initialTodos sampleBodyCompleted (by decide)

/-- C8: when validation passes and the body omitted `completed`, the
middleware sets it to `false` before the route handler runs; when validation
passes and `completed` is present, the body reaches the handler unchanged. -/
theorem C8_completed_default (b : ReqBody) (h : validationMessages b = []) :
    (b.completed = none →
      handleValidationErrors b =
        Except.ok { b with completed := some (JsonPrim.bool false) }) ∧
    (b.completed ≠ none → handleValidationErrors b = Except.ok b) := by
  constructor
  · intro hc
    unfold handleValidationErrors
    rw [if_pos h]
    simp [applyCompletedDefault, hc]
  · intro hc
    unfold handleValidationErrors
    rw [if_pos h]
    cases hcc : b.completed
    · exact absurd hcc hc
    · simp [applyCompletedDefault, hcc]

/-- Witness for C8: the sample body (no `completed`) gets completed = false;
the same body with completed supplied passes through unchanged. -/
theorem C8_witness :
    handleValidationErrors sampleBody =
      Except.ok { sampleBody with completed := some (JsonPrim.bool false) } ∧
    handleValidationErrors sampleBodyCompleted = Except.ok sampleBodyCompleted :=
  ⟨(C8_completed_default sampleBody (by decide)).1 rfl,
    (C8_completed_default sampleBodyCompleted (by decide)).2 (by decide)⟩


/-- C4: every POST or PUT body violating at least one rule is rejected with
400 and the object with error "Validation failed" and the collected messages;
all violations are collected (each rule's message is present exactly when
that rule fails), with exactly one message per failed rule in
rule-declaration order (the list is a subsequence of the six pairwise
distinct rule messages). -/
theorem C4_validation_collects_all (todos : List Todo) (idParam : String)
    (b : ReqBody) (h : validationMessages b ≠ []) :
    postTodo todos b =
      (Resp.badRequest "Validation failed" (validationMessages b), todos) ∧
    putTodo todos idParam b =
      (Resp.badRequest "Validation failed" (validationMessages b), todos) ∧
    (validationMessages b).Sublist allMessages ∧
    allMessages.Nodup ∧
    (taskMsg ∈ validationMessages b ↔ checkTask b = false) ∧
    (descriptionMsg ∈ validationMessages b ↔ checkDescription b = false) ∧
    (priorityMsg ∈ validationMessages b ↔ checkPriority b = false) ∧
    (dueDateMsg ∈ validationMessages b ↔ checkDueDate b = false) ∧
    (tagsMsg ∈ validationMessages b ↔ checkTags b = false) ∧
    (completedMsg ∈ validationMessages b ↔ checkCompleted b = false) := by
  obtain ⟨m1, m2, m3, m4, m5, m6⟩ := mem_validationMessages b
  exact ⟨postTodo_invalid todos b h, putTodo_invalid todos idParam b h,
    msgs_sublist b, by decide, m1, m2, m3, m4, m5, m6⟩

/-- Witness for C4: a body violating all six rules at once is rejected by
POST and PUT with every message collected — the 2-character task puts the
task message in the list and the non-boolean completed puts the completed
message in the list. -/
theorem C4_witness :
    postTodo initialTodos badBody =
      (Resp.badRequest "Validation failed" (validationMessages badBody),
        initialTodos) ∧
    putTodo initialTodos "1" badBody =
      (Resp.badRequest "Validation failed" (validationMessages badBody),
        initialTodos) ∧
    taskMsg ∈ validationMessages badBody ∧
    completedMsg ∈ validationMessages badBody := by
  have h := C4_validation_collects_all initialTodos "1" badBody (by decide)
  exact ⟨h.1, h.2.1, h.2.2.2.2.1.mpr (by decide),
    h.2.2.2.2.2.2.2.2.2.mpr (by decide)⟩

/-- C5: every PUT to an existing id with a valid body replaces every field of
the first matching record with the body's values (completed defaulting to
false only when the body omitted it), keeps the record's position, responds
200 with the updated record, and a subsequent GET of that id returns exactly
the new values. -/
theorem C5_put_replaces (pre post : List Todo) (t₀ : Todo) (idParam : String)
    (n : Int) (b : ReqBody)
    (hb : validationMessages b = [])
    (hid : jsParseInt idParam = some n)
    (hpre : ∀ t ∈ pre, t.id ≠ n)
    (ht : t₀.id = n) :
    putTodo (pre ++ t₀ :: post) idParam b =
      (Resp.okTodo (updatedTodo n b), pre ++ updatedTodo n b :: post) ∧
    (updatedTodo n b).id = n ∧
    b.task = some (updatedTodo n b).task ∧
    b.description = some (updatedTodo n b).description ∧
    b.priority = some (updatedTodo n b).priority ∧
    b.dueDate = some (updatedTodo n b).dueDate ∧
    b.tags = some (updatedTodo n b).tags ∧
    (b.completed = some (updatedTodo n b).completed ∨
      (b.completed = none ∧ (updatedTodo n b).completed = JsonPrim.bool false)) ∧
    getTodo (pre ++ updatedTodo n b :: post) idParam =
      Resp.okTodo (updatedTodo n b) := by
  obtain ⟨h1, h2, h3, h4, h5⟩ := valid_checks b hb
  refine ⟨putTodo_found pre post t₀ idParam n b hb hid hpre ht, rfl,
    task_present b h1, description_present b h2, priority_present b h3,
    dueDate_present b h4, tags_present b h5, ?_, ?_⟩
  · cases hcc : b.completed
    · exact Or.inr ⟨rfl, by simp [updatedTodo, hcc]⟩
    · exact Or.inl (by simp [updatedTodo, hcc])
  · exact getTodo_found pre post (updatedTodo n b) idParam n hid hpre rfl

/-- Witness for C5: updating id 5 (the record appended after the seed store)
with a valid body that sets completed = true. -/
theorem C5_witness :
    putTodo (initialTodos ++ sampleTodoAt 5 :: []) "5" sampleBodyCompleted =
      (Resp.okTodo (updatedTodo 5 sampleBodyCompleted),
        initialTodos ++ updatedTodo 5 sampleBodyCompleted :: []) ∧
    getTodo (initialTodos ++ updatedTodo 5 sampleBodyCompleted :: []) "5" =
      Resp.okTodo (updatedTodo 5 sampleBodyCompleted) := by
  have h := C5_put_replaces initialTodos [] (sampleTodoAt 5) "5" 5
    sampleBodyCompleted (by decide) (by decide) (by decide) (by decide)
  exact ⟨h.1, h.2.2.2.2.2.2.2.2⟩

/-- C6 amended: every DELETE of an existing id responds 200 with the message
"Todo deleted" and the removed record with its pre-delete field values, and
removes exactly that entry from the store (records before and after keep
their order); when the store's ids are pairwise distinct — which the id-reuse
bug can break, see the counterexample — no record with that id remains, so
the record is gone from GET-list results and a subsequent GET of the id
is 404. -/
theorem C6_delete_removes (pre post : List Todo) (t₀ : Todo) (idParam : String)
    (n : Int)
    (hid : jsParseInt idParam = some n)
    (hpre : ∀ t ∈ pre, t.id ≠ n)
    (ht : t₀.id = n) :
    deleteTodo (pre ++ t₀ :: post) idParam =
      (Resp.okDeleted "Todo deleted" t₀, pre ++ post) ∧
    ((storeIds (pre ++ t₀ :: post)).Nodup →
      (∀ t ∈ pre ++ post, t.id ≠ n) ∧
      getTodo (pre ++ post) idParam = Resp.notFound "Todo not found") := by
  refine ⟨deleteTodo_found pre post t₀ idParam n hid hpre ht, fun hnodup => ?_⟩
  have hrem := ids_unique_removed pre post t₀ n ht hnodup
  refine ⟨hrem, ?_⟩
  apply getTodo_miss
  intro t htm
  rw [hid]
  intro hEq
  exact hrem t htm (Option.some.inj hEq)

/-- C6 counterexample: on the reachable store with two field-identical id-4
records (built by the id-reuse bug), DELETE of id 4 responds 200 with one of
them, yet an identical record with that id remains in subsequent GET-list
results and GET of id 4 still returns 200 — so the deleted record has not
disappeared from list results as the claim states. -/
theorem C6_counterexample :
    storeIds dupStore = [3, 4, 4] ∧
    (deleteTodo dupStore "4").1 =
      Resp.okDeleted "Todo deleted" (sampleTodoAt 4) ∧
    sampleTodoAt 4 ∈ (deleteTodo dupStore "4").2 ∧
    getTodo (deleteTodo dupStore "4").2 "4" = Resp.okTodo (sampleTodoAt 4) :=
  ⟨by decide, by decide, by decide, by decide⟩

/-- Witness for the amended C6: the spec scenario — delete id 5 after
creating it; the response returns the record and, the ids being distinct, a
GET of id 5 is then 404. -/
theorem C6_witness :
    deleteTodo (initialTodos ++ sampleTodoAt 5 :: []) "5" =
      (Resp.okDeleted "Todo deleted" (sampleTodoAt 5), initialTodos ++ []) ∧
    getTodo (initialTodos ++ []) "5" = Resp.notFound "Todo not found" := by
  have h := C6_delete_removes initialTodos [] (sampleTodoAt 5) "5" 5
    (by decide) (by decide) (by decide)
  exact ⟨h.1, (h.2 (by decide)).2⟩

/-- C7: whenever no record's id equals the parsed `:id` — in particular for a
non-numeric segment, whose parse is NaN and matches nothing — GET, PUT with a
valid body, and DELETE all respond 404 with error "Todo not found" (never a
distinct parse-error response), leaving the store unchanged. -/
theorem C7_not_found (todos : List Todo) (idParam : String) (b : ReqBody)
    (h : ∀ t ∈ todos, some t.id ≠ jsParseInt idParam) :
    getTodo todos idParam = Resp.notFound "Todo not found" ∧
    (validationMessages b = [] →
      putTodo todos idParam b = (Resp.notFound "Todo not found", todos)) ∧
    deleteTodo todos idParam = (Resp.notFound "Todo not found", todos) := by
  refine ⟨getTodo_miss todos idParam h, ?_, ?_⟩
  · intro hb
    rw [putTodo_valid todos idParam b hb, replaceTodo_none _ _ _ h]
  · unfold deleteTodo
    simp only [removeTodo_none _ _ h]

/-- Witness for C7: the malformed segment "abc" yields 404 on all three
routes against the seed store. -/
theorem C7_witness :
    getTodo initialTodos "abc" = Resp.notFound "Todo not found" ∧
    putTodo initialTodos "abc" sampleBody =
      (Resp.notFound "Todo not found", initialTodos) ∧
    deleteTodo initialTodos "abc" = (Resp.notFound "Todo not found", initialTodos) := by
  have h := C7_not_found initialTodos "abc" sampleBody (by decide)
  exact ⟨h.1, h.2.1 (by decide), h.2.2⟩

/-- C9: a failed request leaves the store exactly as it was — a POST or PUT
rejected by validation (400) and a PUT or DELETE whose id matches nothing
(404) neither add, remove nor modify any record. -/
theorem C9_failure_preserves_store (todos : List Todo) (idParam : String)
    (b : ReqBody) :
    (∀ msgs : List String,
      (postTodo todos b).1 = Resp.badRequest "Validation failed" msgs →
      (postTodo todos b).2 = todos) ∧
    (∀ msgs : List String,
      (putTodo todos idParam b).1 = Resp.badRequest "Validation failed" msgs →
      (putTodo todos idParam b).2 = todos) ∧
    ((putTodo todos idParam b).1 = Resp.notFound "Todo not found" →
      (putTodo todos idParam b).2 = todos) ∧
    ((deleteTodo todos idParam).1 = Resp.notFound "Todo not found" →
      (deleteTodo todos idParam).2 = todos) := by
  refine ⟨?_, ?_, ?_, ?_⟩
  · intro msgs hmsg
    by_cases hv : validationMessages b = []
    · rw [postTodo_valid todos b hv] at hmsg
      simp at hmsg
    · rw [postTodo_invalid todos b hv]
  · intro msgs hmsg
    by_cases hv : validationMessages b = []
    · rw [putTodo_valid todos idParam b hv] at hmsg ⊢
      rcases hrep : replaceTodo (jsParseInt idParam)
          (putRecord (jsParseInt idParam) (applyCompletedDefault b)) todos
        with _ | todos2
      · simp [hrep]
      · simp [hrep] at hmsg
    · rw [putTodo_invalid todos idParam b hv]
  · intro hmsg
    by_cases hv : validationMessages b = []
    · rw [putTodo_valid todos idParam b hv] at hmsg ⊢
      rcases hrep : replaceTodo (jsParseInt idParam)
          (putRecord (jsParseInt idParam) (applyCompletedDefault b)) todos
        with _ | todos2
      · simp [hrep]
      · simp [hrep] at hmsg
    · rw [putTodo_invalid todos idParam b hv] at hmsg
      simp at hmsg
  · intro hmsg
    unfold deleteTodo at hmsg ⊢
    rcases hrem : removeTodo (jsParseInt idParam) todos with _ | ⟨d, ts2⟩
    · simp [hrem]
    · simp [hrem] at hmsg

/-- Witness for C9: a five-violation POST and PUT, a PUT to the absent id 99,
and a DELETE of the absent id 99 all leave the seed store unchanged. -/
theorem C9_witness :
    (postTodo initialTodos badBody).2 = initialTodos ∧
    (putTodo initialTodos "1" badBody).2 = initialTodos ∧
    (putTodo initialTodos "99" sampleBody).2 = initialTodos ∧
    (deleteTodo initialTodos "99").2 = initialTodos :=
  ⟨(C9_failure_preserves_store initialTodos "1" badBody).1
      (validationMessages badBody) (by decide),
    (C9_failure_preserves_store initialTodos "1" badBody).2.1
      (validationMessages badBody) (by decide),
    (C9_failure_preserves_store initialTodos "99" sampleBody).2.2.1 (by decide),
    (C9_failure_preserves_store initialTodos "99" sampleBody).2.2.2 (by decide)⟩


/-- C10 counterexample: the claim that every `:id` segment consisting of a
decimal integer prefix followed by non-numeric characters is parsed as that
prefix is false at the segment "0xA" (prefix "0", suffix "xA"): `parseInt`
autodetects the hexadecimal escape and parses 10, so against a reachable
ten-record store GET returns the id-10 record, while the claimed prefix 0
matches nothing (GET of "0" is 404). -/
theorem C10_counterexample :
    storeIds store10 = [1, 2, 3, 4, 5, 6, 7, 8, 9, 10] ∧
    jsParseInt "0xA" = some 10 ∧
    getTodo store10 "0xA" = Resp.okTodo (sampleTodoAt 10) ∧
    getTodo store10 "0" = Resp.notFound "Todo not found" :=
  ⟨by decide, by decide, by decide, by decide⟩

/-- C10 amended: for every `:id` segment that is a nonempty decimal digit
prefix followed by a non-digit character and arbitrary trailing characters,
GET, PUT (with a valid body) and DELETE parse the segment as the decimal
value of the prefix and act on the first record whose id equals it — except
for segments beginning with the hexadecimal escape "0x"/"0X", which parseInt
reads in hexadecimal instead (the counterexample above). -/
theorem C10_digit_prefix (ds : List Char) (c : Char) (l : List Char)
    (pre post : List Todo) (t₀ : Todo) (b : ReqBody)
    (hne : ds ≠ []) (hds : ∀ x ∈ ds, x.isDigit = true) (hc : c.isDigit = false)
    (hnx : ds = ['0'] → c ≠ 'x' ∧ c ≠ 'X')
    (hb : validationMessages b = [])
    (hpre : ∀ t ∈ pre, t.id ≠ (decValue ds : Int))
    (ht : t₀.id = (decValue ds : Int)) :
    jsParseInt ⟨ds ++ c :: l⟩ = some (decValue ds : Int) ∧
    getTodo (pre ++ t₀ :: post) ⟨ds ++ c :: l⟩ = Resp.okTodo t₀ ∧
    putTodo (pre ++ t₀ :: post) ⟨ds ++ c :: l⟩ b =
      (Resp.okTodo (updatedTodo (decValue ds : Int) b),
        pre ++ updatedTodo (decValue ds : Int) b :: post) ∧
    deleteTodo (pre ++ t₀ :: post) ⟨ds ++ c :: l⟩ =
      (Resp.okDeleted "Todo deleted" t₀, pre ++ post) := by
  have hid := jsParseInt_digit_prefix ds c l hne hds hc hnx
  exact ⟨hid, getTodo_found pre post t₀ _ _ hid hpre ht,
    putTodo_found pre post t₀ _ _ b hb hid hpre ht,
    deleteTodo_found pre post t₀ _ _ hid hpre ht⟩

/-- Witness for the amended C10: the segment "5abc" is parsed as 5 and GET,
PUT and DELETE act on the id-5 record of a five-record store. -/
theorem C10_witness :
    jsParseInt ⟨['5'] ++ 'a' :: ['b', 'c']⟩ = some (decValue ['5'] : Int) ∧
    getTodo (initialTodos ++ sampleTodoAt 5 :: []) ⟨['5'] ++ 'a' :: ['b', 'c']⟩ =
      Resp.okTodo (sampleTodoAt 5) ∧
    putTodo (initialTodos ++ sampleTodoAt 5 :: []) ⟨['5'] ++ 'a' :: ['b', 'c']⟩
        sampleBody =
      (Resp.okTodo (updatedTodo (decValue ['5'] : Int) sampleBody),
        initialTodos ++ updatedTodo (decValue ['5'] : Int) sampleBody :: []) ∧
    deleteTodo (initialTodos ++ sampleTodoAt 5 :: []) ⟨['5'] ++ 'a' :: ['b', 'c']⟩ =
      (Resp.okDeleted "Todo deleted" (sampleTodoAt 5), initialTodos ++ []) :=
  C10_digit_prefix ['5'] 'a' ['b', 'c'] initialTodos [] (sampleTodoAt 5)
    sampleBody (by decide) (by decide) (by decide) (by decide) (by decide)
    (by decide) (by decide)

end TodoApi
